import Mathlib

/-!
Verification of the state-sync driver event loop
(state-sync/state-sync-v2/state-sync-driver/src/driver.rs).

The driver is shallowly embedded as pure Lean functions over an explicit
driver state. Calls into external collaborators (storage reader,
Bootstrapper, Continuous Syncer, consensus/mempool handlers, data
client) are modelled by an `Oracle` supplying their results, and each
handler returns, next to the updated state, the ordered list of
observable `Effect`s it performed. Collaborator-internal behaviour that
is not part of driver.rs (the Bootstrapper flag, the consensus sync
request holder) is modelled from the specification and marked as such
in the doc comments.
-/

namespace StateSyncDriver

/-- Node role, from aptos-config RoleType (only the two variants the driver
inspects). -/
inductive RoleType
  | validator
  | fullNode
deriving DecidableEq

/-- Driver errors, from error.rs (modelled from the spec: only the
constructors driver.rs produces or matches on, each carrying its message). -/
inductive Error
  | fullNodeConsensusNotification (msg : String)
  | bootstrapNotComplete (msg : String)
  | storageError (msg : String)
  | other (msg : String)
deriving DecidableEq

/-- Result type mirroring Rust Result<α, Error>. -/
inductive Res (α : Type)
  | ok (a : α)
  | err (e : Error)
deriving DecidableEq

/-- True iff the result is ok. -/
def Res.isOk : Res α → Bool
  | .ok _ => true
  | .err _ => false

/-- Stream-termination feedback, from the data-streaming-service client
(only the variant the driver uses). -/
inductive NotificationFeedback
  | invalidPayloadData
deriving DecidableEq

/-- A consensus commit payload: committed transactions plus
reconfiguration events (payload contents abstracted to identifiers). -/
structure ConsensusCommitNotification where
  transactions : List Nat
  reconfigurationEvents : List Nat
deriving DecidableEq

/-- A consensus sync-to-target payload. -/
structure ConsensusSyncNotification where
  target : Nat
deriving DecidableEq

/-- A notification sent by consensus, from consensus-notifications. -/
inductive ConsensusNotification
  | notifyCommit (c : ConsensusCommitNotification)
  | syncToTarget (s : ConsensusSyncNotification)
deriving DecidableEq

/-- A committed-transactions payload from the storage synchronizer. -/
structure CommittedTransactions where
  transactions : List Nat
  events : List Nat
deriving DecidableEq

/-- A committed-accounts payload from the storage synchronizer. -/
structure CommittedAccounts where
  allAccountsSynced : Bool
  lastCommittedAccountIndex : Nat
  committedTransaction : Option CommittedTransactions
deriving DecidableEq

/-- A commit notification from the storage synchronizer. -/
inductive CommitNotification
  | committedAccounts (ca : CommittedAccounts)
  | committedTransactions (ct : CommittedTransactions)
deriving DecidableEq

/-- An error notification from the storage synchronizer, identified by a
notification id. -/
structure ErrorNotification where
  notificationId : Nat
  errorMessage : String
deriving DecidableEq

/-- A client notification (the driver client supports only the
bootstrap-subscription request; the channel itself is abstracted). -/
inductive DriverNotification
  | notifyOnceBootstrapped
deriving DecidableEq

/-- Modelled from the spec: the consensus sync request held inside the
Consensus Notification Handler (that component is not under src/). It
carries a target version and a last-commit timestamp used for liveness
checking. -/
structure ConsensusSyncRequest where
  targetVersion : Nat
  lastCommitTimestamp : Nat
deriving DecidableEq

/-- Driver tunables from StateSyncDriverConfig (only the fields
driver.rs reads). -/
structure StateSyncDriverConfig where
  progressCheckIntervalMs : Nat
  maxConnectionDeadlineSecs : Nat
deriving DecidableEq

/-- The configuration of the state sync driver (waypoint abstracted to
its version, the only part driver.rs inspects). -/
structure DriverConfiguration where
  config : StateSyncDriverConfig
  role : RoleType
  waypointVersion : Nat
deriving DecidableEq

/-- The driver-visible state. `bootstrapped` is the Bootstrapper flag
behind is_bootstrapped (modelled from the spec: the Bootstrapper is not
under src/; per the spec its operations may set the flag but never clear
it). `syncRequest` is the optional consensus sync request held by the
Consensus Notification Handler (modelled from the spec). `startTime` is
the timestamp recorded when the driver loop started (seconds, as Nat). -/
structure DriverState where
  bootstrapped : Bool
  syncRequest : Option ConsensusSyncRequest
  driverConfiguration : DriverConfiguration
  startTime : Option Nat
deriving DecidableEq

/-- The global data summary from the aptos data client, abstracted to
the only query driver.rs makes on it. -/
structure GlobalDataSummary where
  isEmpty : Bool
deriving DecidableEq

/-- Results of the external collaborator calls a single handler run may
make, supplied as an oracle: storage reads, the shared commit routine,
consensus response sends, stream terminations, the Bootstrapper calls,
the data-client summary, and the current clock reading (seconds). The
`bootstrapperCompletes` bit models the Bootstrapper completing its
internal phase transition during a successful drive_progress call
(modelled from the spec). -/
structure Oracle where
  fetchLatestSyncedVersion : Res Nat
  fetchLatestSyncedLedgerInfo : Res Nat
  handleTransactionNotificationResult : Res Unit
  respondToCommitResult : Res Unit
  respondToSyncResult : Res Unit
  terminateContinuousSyncerResult : Res Unit
  terminateBootstrapperResult : Res Unit
  bootstrapperHandleCommittedAccountsResult : Res Unit
  bootstrappingCompleteResult : Res Unit
  subscribeResult : Res Unit
  continuousSyncerDriveProgressResult : Res Unit
  bootstrapperDriveProgressResult : Res Unit
  bootstrapperCompletes : Bool
  globalDataSummary : GlobalDataSummary
  now : Nat
deriving DecidableEq

/-- Observable effects a handler performs, in order. Response effects
carry the payload sent on the response channel. -/
inductive Effect
  | respondToCommit (result : Res Unit)
  | respondToSync (result : Res Unit)
  | handleTransactionNotificationCall
  | checkSyncRequestProgressCall
  | consensusHandlerCheckProgress
  | initializeSyncRequestCall
  | updateLastCommitTimestampCall
  | bootstrapperHandleCommittedAccountsCall
  | bootstrapperDriveProgressCall
  | continuousSyncerDriveProgressCall
  | bootstrapperTerminateActiveStream (id : Nat) (feedback : NotificationFeedback)
  | continuousSyncerTerminateActiveStream (id : Nat) (feedback : NotificationFeedback)
  | bootstrappingCompleteCall
  | subscribeToBootstrapNotificationsCall
  | logError
deriving DecidableEq

/-- Outcome of a handler that may abort the whole process (Rust panic /
expect). -/
inductive Outcome (α : Type)
  | normal (a : α)
  | aborted (msg : String)
deriving DecidableEq

/-- True for effects that invoke the Bootstrapper or the Continuous
Syncer. -/
def Effect.touchesSyncComponents : Effect → Bool
  | .bootstrapperHandleCommittedAccountsCall => true
  | .bootstrapperDriveProgressCall => true
  | .bootstrapperTerminateActiveStream _ _ => true
  | .bootstrappingCompleteCall => true
  | .continuousSyncerDriveProgressCall => true
  | .continuousSyncerTerminateActiveStream _ _ => true
  | _ => false

/-- True for effects that constitute per-tick progress work: driving the
Bootstrapper or Continuous Syncer, or checking sync-request progress. -/
def Effect.isProgressWork : Effect → Bool
  | .bootstrapperDriveProgressCall => true
  | .continuousSyncerDriveProgressCall => true
  | .checkSyncRequestProgressCall => true
  | _ => false

/-- True for a response effect carrying a BootstrapNotComplete error. -/
def Effect.isBootstrapNotCompleteResponse : Effect → Bool
  | .respondToCommit (Res.err (Error.bootstrapNotComplete _)) => true
  | .respondToSync (Res.err (Error.bootstrapNotComplete _)) => true
  | _ => false

/-- Abbreviated description standing in for the Rust format string over
the received notification. -/
def consensusNotificationDescription : ConsensusNotification → String
  | .notifyCommit _ => "Received consensus commit notification"
  | .syncToTarget _ => "Received consensus sync notification"

/-- Returns true iff this node is a validator (driver.rs is_validator). -/
def is_validator (st : DriverState) : Bool :=
  st.driverConfiguration.role == RoleType.validator

/-- Spec-modelled accessor of the Consensus Notification Handler: true
iff a consensus sync request is currently held. -/
def active_sync_request (st : DriverState) : Bool :=
  st.syncRequest.isSome

/-- Returns true iff consensus is currently executing (driver.rs
check_if_consensus_executing). -/
def check_if_consensus_executing (st : DriverState) : Bool :=
  is_validator st && st.bootstrapped && !(active_sync_request st)

/-- Checks if the node has reached the sync target (driver.rs
check_sync_request_progress): returns immediately when no sync request
is active, otherwise fetches the latest synced ledger info and asks the
handler to check progress. The handler internals are modelled from the
spec: a request whose target has been reached is cleared and answered on
its response channel. -/
def check_sync_request_progress (st : DriverState) (o : Oracle) :
    DriverState × List Effect × Res Unit :=
  match st.syncRequest with
  | none => (st, [Effect.checkSyncRequestProgressCall], Res.ok ())
  | some req =>
    match o.fetchLatestSyncedLedgerInfo with
    | Res.err e => (st, [Effect.checkSyncRequestProgressCall], Res.err e)
    | Res.ok version =>
      if req.targetVersion ≤ version then
        ({ st with syncRequest := none },
         [Effect.checkSyncRequestProgressCall, Effect.consensusHandlerCheckProgress,
          Effect.respondToSync (Res.ok ())],
         Res.ok ())
      else
        (st, [Effect.checkSyncRequestProgressCall, Effect.consensusHandlerCheckProgress],
         Res.ok ())

/-- Handles a commit notification sent by consensus (driver.rs
handle_consensus_commit_notification): fetch the latest synced version
and ledger info, run the shared transaction-notification routine,
respond to consensus with success, then check sync-request progress.
Every fallible step propagates its error (Rust `?`). -/
def handle_consensus_commit_notification (st : DriverState) (o : Oracle)
    (_c : ConsensusCommitNotification) : DriverState × List Effect × Res Unit :=
  match o.fetchLatestSyncedVersion with
  | Res.err e => (st, [], Res.err e)
  | Res.ok _ =>
    match o.fetchLatestSyncedLedgerInfo with
    | Res.err e => (st, [], Res.err e)
    | Res.ok _ =>
      match o.handleTransactionNotificationResult with
      | Res.err e => (st, [Effect.handleTransactionNotificationCall], Res.err e)
      | Res.ok _ =>
        match o.respondToCommitResult with
        | Res.err e =>
          (st, [Effect.handleTransactionNotificationCall,
                Effect.respondToCommit (Res.ok ())], Res.err e)
        | Res.ok _ =>
          match check_sync_request_progress st o with
          | (st2, effs, res) =>
            (st2, [Effect.handleTransactionNotificationCall,
                   Effect.respondToCommit (Res.ok ())] ++ effs, res)

/-- Handles a consensus sync-to-target notification (driver.rs
handle_consensus_sync_notification): fetch the latest synced version and
ledger info, then register the new sync request with the handler
(handler internals modelled from the spec: the request is stored with
the current time as its last-commit timestamp). -/
def handle_consensus_sync_notification (st : DriverState) (o : Oracle)
    (s : ConsensusSyncNotification) : DriverState × List Effect × Res Unit :=
  match o.fetchLatestSyncedVersion with
  | Res.err e => (st, [], Res.err e)
  | Res.ok _ =>
    match o.fetchLatestSyncedLedgerInfo with
    | Res.err e => (st, [], Res.err e)
    | Res.ok _ =>
      ({ st with syncRequest := some ⟨s.target, o.now⟩ },
       [Effect.initializeSyncRequestCall], Res.ok ())

/-- Handles a notification sent by consensus (driver.rs
handle_consensus_notification): full nodes are rejected with
FullNodeConsensusNotification; nodes that have not bootstrapped are
rejected with BootstrapNotComplete; in both cases the error is sent back
on the response channel and logged. Otherwise the notification is
dispatched to the commit or sync handler and any error is logged. -/
def handle_consensus_notification (st : DriverState) (o : Oracle)
    (n : ConsensusNotification) : DriverState × List Effect :=
  if st.driverConfiguration.role == RoleType.fullNode then
    let e := Error.fullNodeConsensusNotification (consensusNotificationDescription n)
    match n with
    | .notifyCommit _ => (st, [Effect.respondToCommit (Res.err e), Effect.logError])
    | .syncToTarget _ => (st, [Effect.respondToSync (Res.err e), Effect.logError])
  else if !st.bootstrapped then
    let e := Error.bootstrapNotComplete (consensusNotificationDescription n)
    match n with
    | .notifyCommit _ => (st, [Effect.respondToCommit (Res.err e), Effect.logError])
    | .syncToTarget _ => (st, [Effect.respondToSync (Res.err e), Effect.logError])
  else
    match n with
    | .notifyCommit c =>
      match handle_consensus_commit_notification st o c with
      | (st2, effs, Res.ok _) => (st2, effs)
      | (st2, effs, Res.err _) => (st2, effs ++ [Effect.logError])
    | .syncToTarget s =>
      match handle_consensus_sync_notification st o s with
      | (st2, effs, Res.ok _) => (st2, effs)
      | (st2, effs, Res.err _) => (st2, effs ++ [Effect.logError])

/-- Handles a committed-transactions notification from the storage
synchronizer (driver.rs handle_committed_transactions): a failed fetch
of the latest synced version or ledger info is logged and aborts
handling; an error of the shared transaction-notification routine is
logged (without a return); afterwards, if a consensus sync request is
active, its last-commit timestamp is refreshed (the handler internals
are modelled from the spec: the timestamp is set to the current time). -/
def handle_committed_transactions (st : DriverState) (o : Oracle)
    (_ct : CommittedTransactions) : DriverState × List Effect :=
  match o.fetchLatestSyncedVersion with
  | Res.err _ => (st, [Effect.logError])
  | Res.ok _ =>
    match o.fetchLatestSyncedLedgerInfo with
    | Res.err _ => (st, [Effect.logError])
    | Res.ok _ =>
      let effs := [Effect.handleTransactionNotificationCall] ++
        (match o.handleTransactionNotificationResult with
         | Res.err _ => [Effect.logError]
         | Res.ok _ => [])
      match st.syncRequest with
      | some req =>
        ({ st with syncRequest := some { req with lastCommitTimestamp := o.now } },
         effs ++ [Effect.updateLastCommitTimestampCall])
      | none => (st, effs)

/-- The effects of forwarding a committed-accounts payload to the
Bootstrapper: the call itself plus an error log when the call fails. -/
def bootstrapperForwardEffects (o : Oracle) : List Effect :=
  [Effect.bootstrapperHandleCommittedAccountsCall] ++
    (match o.bootstrapperHandleCommittedAccountsResult with
     | Res.err _ => [Effect.logError]
     | Res.ok _ => [])

/-- Handles a committed-accounts notification (driver.rs
handle_committed_accounts): the payload is forwarded to the Bootstrapper
(errors logged, not propagated); when all accounts are synced, the
embedded final transaction batch is extracted with expect (the process
aborts if it is missing) and handled via the committed-transactions
path. -/
def handle_committed_accounts (st : DriverState) (o : Oracle)
    (ca : CommittedAccounts) : Outcome (DriverState × List Effect) :=
  if ca.allAccountsSynced then
    match ca.committedTransaction with
    | none =>
      Outcome.aborted "Committed transaction should exist for last committed account chunk!"
    | some ct =>
      match handle_committed_transactions st o ct with
      | (st2, effs1) => Outcome.normal (st2, bootstrapperForwardEffects o ++ effs1)
  else Outcome.normal (st, bootstrapperForwardEffects o)

/-- Handles a commit notification sent by the storage synchronizer
(driver.rs handle_commit_notification): dispatch on the payload kind. -/
def handle_commit_notification (st : DriverState) (o : Oracle) :
    CommitNotification → Outcome (DriverState × List Effect)
  | .committedAccounts ca => handle_committed_accounts st o ca
  | .committedTransactions ct => Outcome.normal (handle_committed_transactions st o ct)

/-- Handles an error notification from the storage synchronizer
(driver.rs handle_error_notification): logs the notification, then
terminates the active stream of the Continuous Syncer when bootstrapped,
of the Bootstrapper otherwise, with feedback InvalidPayloadData; a
failed termination aborts the process. -/
def handle_error_notification (st : DriverState) (o : Oracle)
    (en : ErrorNotification) : Outcome (List Effect) :=
  if st.bootstrapped then
    match o.terminateContinuousSyncerResult with
    | Res.err _ =>
      Outcome.aborted "Failed to terminate the active stream for the continuous syncer!"
    | Res.ok _ =>
      Outcome.normal [Effect.logError,
        Effect.continuousSyncerTerminateActiveStream en.notificationId
          NotificationFeedback.invalidPayloadData]
  else
    match o.terminateBootstrapperResult with
    | Res.err _ =>
      Outcome.aborted "Failed to terminate the active stream for the bootstrapper!"
    | Res.ok _ =>
      Outcome.normal [Effect.logError,
        Effect.bootstrapperTerminateActiveStream en.notificationId
          NotificationFeedback.invalidPayloadData]

/-- Handles a client notification (driver.rs handle_client_notification):
subscribe the notifier channel with the Bootstrapper, logging a failure. -/
def handle_client_notification (st : DriverState) (o : Oracle)
    (n : DriverNotification) : DriverState × List Effect :=
  match n with
  | .notifyOnceBootstrapped =>
    (st, [Effect.subscribeToBootstrapNotificationsCall] ++
      (match o.subscribeResult with
       | Res.err _ => [Effect.logError]
       | Res.ok _ => []))

/-- Largest representable SystemTime in the model (seconds in a 64-bit
machine word). -/
def systemTimeMax : Nat := 2 ^ 64 - 1

/-- Checked addition on model SystemTime, mirroring
SystemTime::checked_add: none when the sum would overflow. -/
def durationCheckedAdd (t d : Nat) : Option Nat :=
  if t + d ≤ systemTimeMax then some (t + d) else none

/-- Checks if the connection deadline has passed (driver.rs
check_auto_bootstrapping): applies only to a not-yet-bootstrapped
validator with a genesis (version 0) waypoint. When the deadline
computation overflows, the overflow is logged and nothing else happens.
When the current time has reached the deadline, bootstrapping_complete
is forced on the Bootstrapper (modelled from the spec: on success the
bootstrapped flag becomes true); a failure of that call is logged. -/
def check_auto_bootstrapping (st : DriverState) (o : Oracle) :
    DriverState × List Effect :=
  if !st.bootstrapped && is_validator st &&
      st.driverConfiguration.waypointVersion == 0 then
    match st.startTime with
    | some t0 =>
      match durationCheckedAdd t0 st.driverConfiguration.config.maxConnectionDeadlineSecs with
      | some deadline =>
        if deadline ≤ o.now then
          match o.bootstrappingCompleteResult with
          | Res.err _ => (st, [Effect.bootstrappingCompleteCall, Effect.logError])
          | Res.ok _ => ({ st with bootstrapped := true }, [Effect.bootstrappingCompleteCall])
        else (st, [])
      | none => (st, [Effect.logError])
    | none => (st, [])
  else (st, [])

/-- Checks that state sync is making progress (driver.rs drive_progress):
an empty global data summary short-circuits into the auto-bootstrapping
check; otherwise sync-request progress is re-checked (errors logged),
nothing further happens when consensus is executing, and exactly one of
the Continuous Syncer (when bootstrapped) or the Bootstrapper (when not)
is driven, with errors logged. A successful Bootstrapper drive may
complete bootstrapping (modelled from the spec via the oracle bit). -/
def drive_progress (st : DriverState) (o : Oracle) : DriverState × List Effect :=
  if o.globalDataSummary.isEmpty then
    check_auto_bootstrapping st o
  else
    match check_sync_request_progress st o with
    | (st1, effs0, res1) =>
      let effs1 := effs0 ++
        (match res1 with
         | Res.err _ => [Effect.logError]
         | Res.ok _ => [])
      if check_if_consensus_executing st1 then
        (st1, effs1)
      else if st1.bootstrapped then
        (st1, effs1 ++ [Effect.continuousSyncerDriveProgressCall] ++
          (match o.continuousSyncerDriveProgressResult with
           | Res.err _ => [Effect.logError]
           | Res.ok _ => []))
      else
        match o.bootstrapperDriveProgressResult with
        | Res.err _ => (st1, effs1 ++ [Effect.bootstrapperDriveProgressCall, Effect.logError])
        | Res.ok _ =>
          ({ st1 with bootstrapped := st1.bootstrapped || o.bootstrapperCompletes },
           effs1 ++ [Effect.bootstrapperDriveProgressCall])

/-- One event the driver loop can select: a client notification, a
storage-synchronizer commit notification, a consensus notification, an
error notification, or a progress tick. -/
inductive DriverEvent
  | clientNotification (n : DriverNotification)
  | commitNotification (n : CommitNotification)
  | consensusNotification (n : ConsensusNotification)
  | errorNotification (n : ErrorNotification)
  | progressTick
deriving DecidableEq

/-- One iteration of the driver select loop (driver.rs start_driver):
dispatch the selected event to its handler. -/
def step (st : DriverState) (o : Oracle) :
    DriverEvent → Outcome (DriverState × List Effect)
  | .clientNotification n => Outcome.normal (handle_client_notification st o n)
  | .commitNotification n => handle_commit_notification st o n
  | .consensusNotification n => Outcome.normal (handle_consensus_notification st o n)
  | .errorNotification en =>
    match handle_error_notification st o en with
    | .aborted m => Outcome.aborted m
    | .normal effs => Outcome.normal (st, effs)
  | .progressTick => Outcome.normal (drive_progress st o)

/-- A run of the driver loop over a sequence of events, each with the
oracle describing its collaborator results. -/
def run (st : DriverState) : List (Oracle × DriverEvent) → Outcome DriverState
  | [] => Outcome.normal st
  | oe :: rest =>
    match step st oe.1 oe.2 with
    | .aborted m => Outcome.aborted m
    | .normal (st2, _) => run st2 rest

/-- A validator configuration with a genesis waypoint used as concrete
test data. -/
def exampleValidatorConfig : DriverConfiguration :=
  ⟨⟨100, 10⟩, RoleType.validator, 0⟩

/-- A full-node configuration used as concrete test data. -/
def exampleFullNodeConfig : DriverConfiguration :=
  ⟨⟨100, 10⟩, RoleType.fullNode, 0⟩

/-- An oracle on which every collaborator call succeeds. -/
def exampleOracle : Oracle :=
  ⟨Res.ok 5, Res.ok 5, Res.ok (), Res.ok (), Res.ok (), Res.ok (), Res.ok (),
   Res.ok (), Res.ok (), Res.ok (), Res.ok (), Res.ok (), false, ⟨false⟩, 100⟩

/-- An oracle on which the shared transaction-notification routine
fails and everything else succeeds. -/
def exampleOracleTxnErr : Oracle :=
  { exampleOracle with
      handleTransactionNotificationResult := Res.err (Error.other "mempool failure") }

/-- A bootstrapped validator state used as concrete test data. -/
def exampleBootstrappedState : DriverState :=
  ⟨true, none, exampleValidatorConfig, some 0⟩

/-- A not-yet-bootstrapped validator state used as concrete test data. -/
def exampleFreshValidatorState : DriverState :=
  ⟨false, none, exampleValidatorConfig, some 0⟩

/-- A not-yet-bootstrapped full-node state used as concrete test data. -/
def exampleFreshFullNodeState : DriverState :=
  ⟨false, none, exampleFullNodeConfig, some 0⟩

/-- Scans a trace and checks that the first sync-request progress check,
if any, is preceded by a successful commit acknowledgement: the scan
stops at the first commit-ack (true) or the first progress check
(false). -/
def ackBeforeCheck : List Effect → Bool
  | [] => true
  | Effect.checkSyncRequestProgressCall :: _ => false
  | Effect.respondToCommit (Res.ok _) :: _ => true
  | _ :: rest => ackBeforeCheck rest

/-- A bootstrapped validator state holding an active consensus sync
request with target version 5 and last-commit timestamp 10. -/
def exampleSyncRequestState : DriverState :=
  ⟨true, some ⟨5, 10⟩, exampleValidatorConfig, some 0⟩

/-- A concrete committed-transactions payload. -/
def exampleCommittedTransactions : CommittedTransactions := ⟨[1], [2]⟩

/-- A committed-accounts payload claiming all accounts synced but
carrying no embedded transaction batch. -/
def exampleAccountsNoBatch : CommittedAccounts := ⟨true, 3, none⟩

/-- A committed-accounts payload with all accounts synced and an
embedded final transaction batch. -/
def exampleAccountsWithBatch : CommittedAccounts :=
  ⟨true, 3, some exampleCommittedTransactions⟩

/-- An oracle whose global data summary is empty and on which every
collaborator call succeeds. -/
def exampleEmptySummaryOracle : Oracle :=
  { exampleOracle with globalDataSummary := ⟨true⟩ }

/-- An oracle on which the Bootstrapper rejects the committed-accounts
forwarding and everything else succeeds. -/
def exampleOracleAccountsErr : Oracle :=
  { exampleOracle with
      bootstrapperHandleCommittedAccountsResult := Res.err (Error.other "stale chunk") }

/-- A concrete error notification. -/
def exampleErrorNotification : ErrorNotification := ⟨42, "bad payload"⟩

/-- A not-yet-bootstrapped validator whose start time is so late that
adding the connection deadline overflows the model SystemTime. -/
def exampleOverflowState : DriverState :=
  ⟨false, none, exampleValidatorConfig, some systemTimeMax⟩

theorem check_sync_request_progress_preserves_bootstrapped
    (st : DriverState) (o : Oracle) :
    (check_sync_request_progress st o).1.bootstrapped = st.bootstrapped := by
  unfold check_sync_request_progress
  repeat' split
  all_goals rfl

theorem handle_consensus_commit_preserves_bootstrapped (st : DriverState)
    (o : Oracle) (c : ConsensusCommitNotification) :
    (handle_consensus_commit_notification st o c).1.bootstrapped = st.bootstrapped := by
  unfold handle_consensus_commit_notification
  have h := check_sync_request_progress_preserves_bootstrapped st o
  repeat' split
  all_goals try rfl
  all_goals
    rename_i heq
    rw [heq] at h
    exact h

theorem handle_consensus_sync_preserves_bootstrapped (st : DriverState)
    (o : Oracle) (s : ConsensusSyncNotification) :
    (handle_consensus_sync_notification st o s).1.bootstrapped = st.bootstrapped := by
  unfold handle_consensus_sync_notification
  repeat' split
  all_goals rfl

theorem handle_consensus_preserves_bootstrapped (st : DriverState)
    (o : Oracle) (n : ConsensusNotification) :
    (handle_consensus_notification st o n).1.bootstrapped = st.bootstrapped := by
  unfold handle_consensus_notification
  split
  · split <;> rfl
  · split
    · split <;> rfl
    · split
      · rename_i c
        have h := handle_consensus_commit_preserves_bootstrapped st o c
        split <;> (rename_i heq; rw [heq] at h; exact h)
      · rename_i s
        have h := handle_consensus_sync_preserves_bootstrapped st o s
        split <;> (rename_i heq; rw [heq] at h; exact h)

theorem handle_committed_transactions_preserves_bootstrapped
    (st : DriverState) (o : Oracle) (ct : CommittedTransactions) :
    (handle_committed_transactions st o ct).1.bootstrapped = st.bootstrapped := by
  unfold handle_committed_transactions
  repeat' split
  all_goals rfl

theorem handle_committed_accounts_preserves_bootstrapped
    (st : DriverState) (o : Oracle) (ca : CommittedAccounts)
    (p : DriverState × List Effect)
    (h : handle_committed_accounts st o ca = Outcome.normal p) :
    p.1.bootstrapped = st.bootstrapped := by
  unfold handle_committed_accounts at h
  split at h
  · split at h
    · cases h
    · rename_i ct hct
      have hb := handle_committed_transactions_preserves_bootstrapped st o ct
      split at h
      rename_i st3 effs3 heq
      injection h with h2
      subst h2
      rw [heq] at hb
      exact hb
  · injection h with h2
    subst h2
    rfl

theorem check_auto_bootstrapping_already_done (st : DriverState)
    (o : Oracle) (hb : st.bootstrapped = true) :
    check_auto_bootstrapping st o = (st, []) := by
  unfold check_auto_bootstrapping
  simp [hb]

theorem drive_progress_monotone_bootstrapped (st : DriverState) (o : Oracle)
    (hb : st.bootstrapped = true) :
    (drive_progress st o).1.bootstrapped = true := by
  unfold drive_progress
  have hc := check_sync_request_progress_preserves_bootstrapped st o
  repeat' split
  all_goals simp_all [check_auto_bootstrapping_already_done st o hb]

theorem step_preserves_bootstrapped (st : DriverState) (o : Oracle)
    (e : DriverEvent) (st2 : DriverState) (effs : List Effect)
    (hstep : step st o e = Outcome.normal (st2, effs))
    (hb : st.bootstrapped = true) : st2.bootstrapped = true := by
  cases e with
  | clientNotification n =>
    unfold step handle_client_notification at hstep
    cases n
    injection hstep with h2
    injection h2 with ha hb2
    exact ha ▸ hb
  | commitNotification n =>
    unfold step handle_commit_notification at hstep
    cases n with
    | committedAccounts ca =>
      have h := handle_committed_accounts_preserves_bootstrapped st o ca (st2, effs) hstep
      rw [h]
      exact hb
    | committedTransactions ct =>
      have h := handle_committed_transactions_preserves_bootstrapped st o ct
      injection hstep with h2
      rw [h2] at h
      rw [h]
      exact hb
  | consensusNotification n =>
    unfold step at hstep
    have h := handle_consensus_preserves_bootstrapped st o n
    injection hstep with h2
    rw [h2] at h
    rw [h]
    exact hb
  | errorNotification en =>
    simp only [step] at hstep
    split at hstep
    · cases hstep
    · injection hstep with h2
      injection h2 with ha hb2
      exact ha ▸ hb
  | progressTick =>
    unfold step at hstep
    have h := drive_progress_monotone_bootstrapped st o hb
    injection hstep with h2
    rw [h2] at h
    exact h

/-- Claim C1: the driver lifecycle phase is monotonic: over any run of
the driver loop, once the Bootstrapper flag behind is_bootstrapped is
true it stays true at every later point, so the Bootstrapping to
ContinuouslySyncing transition happens at most once and is never
reversed. -/
theorem run_bootstrapped_monotonic (st : DriverState)
    (evs : List (Oracle × DriverEvent)) (st2 : DriverState)
    (hb : st.bootstrapped = true)
    (hrun : run st evs = Outcome.normal st2) : st2.bootstrapped = true := by
  induction evs generalizing st with
  | nil =>
    unfold run at hrun
    cases hrun
    exact hb
  | cons oe rest ih =>
    unfold run at hrun
    cases hstep : step st oe.1 oe.2 with
    | aborted m =>
      rw [hstep] at hrun
      cases hrun
    | normal p =>
      rw [hstep] at hrun
      exact ih p.1 (step_preserves_bootstrapped st oe.1 oe.2 p.1 p.2
        (by rw [hstep]) hb) hrun

/-- Witness for claim C1 at a concrete bootstrapped state and a
single-event run. -/
theorem run_bootstrapped_monotonic_witness :
    exampleBootstrappedState.bootstrapped = true :=
  run_bootstrapped_monotonic exampleBootstrappedState
    [(exampleOracle, DriverEvent.clientNotification DriverNotification.notifyOnceBootstrapped)]
    exampleBootstrappedState rfl rfl

/-- Claim C2: for a node whose role is FullNode, every consensus
notification (commit or sync-to-target) is answered with a
FullNodeConsensusNotification error on its response channel, the driver
state is unchanged, and neither the Bootstrapper nor the Continuous
Syncer is invoked. -/
theorem fullnode_consensus_notification_rejected (st : DriverState)
    (o : Oracle) (n : ConsensusNotification)
    (h : st.driverConfiguration.role = RoleType.fullNode) :
    (handle_consensus_notification st o n).1 = st ∧
    (handle_consensus_notification st o n).2 =
      (match n with
       | ConsensusNotification.notifyCommit _ =>
         [Effect.respondToCommit (Res.err (Error.fullNodeConsensusNotification
            (consensusNotificationDescription n))), Effect.logError]
       | ConsensusNotification.syncToTarget _ =>
         [Effect.respondToSync (Res.err (Error.fullNodeConsensusNotification
            (consensusNotificationDescription n))), Effect.logError]) ∧
    ((handle_consensus_notification st o n).2.any Effect.touchesSyncComponents) = false := by
  unfold handle_consensus_notification
  have hr : (st.driverConfiguration.role == RoleType.fullNode) = true := by
    rw [h]; rfl
  cases n <;> simp [hr, Effect.touchesSyncComponents]

/-- Witness for claim C2 at a concrete full-node state and commit
notification. -/
theorem fullnode_consensus_notification_rejected_witness :
    (handle_consensus_notification exampleFreshFullNodeState exampleOracle
      (ConsensusNotification.notifyCommit ⟨[], []⟩)).1 = exampleFreshFullNodeState :=
  (fullnode_consensus_notification_rejected exampleFreshFullNodeState exampleOracle
    (ConsensusNotification.notifyCommit ⟨[], []⟩) rfl).1

/-- Claim C3 fails as stated: a FullNode that is not yet bootstrapped
answers a consensus notification with a FullNodeConsensusNotification
error, not BootstrapNotComplete; no BootstrapNotComplete response
appears anywhere in its trace, because the role check precedes the
bootstrap check. -/
theorem bootstrap_not_complete_counterexample :
    exampleFreshFullNodeState.bootstrapped = false ∧
    (handle_consensus_notification exampleFreshFullNodeState exampleOracle
        (ConsensusNotification.notifyCommit ⟨[], []⟩)).2 =
      [Effect.respondToCommit (Res.err (Error.fullNodeConsensusNotification
         "Received consensus commit notification")), Effect.logError] ∧
    ((handle_consensus_notification exampleFreshFullNodeState exampleOracle
        (ConsensusNotification.notifyCommit ⟨[], []⟩)).2.any
      Effect.isBootstrapNotCompleteResponse) = false :=
  ⟨rfl, rfl, rfl⟩

/-- Claim C3 (amended): for every Validator node that is not yet
bootstrapped, every consensus notification (commit or sync-to-target) is
answered with a BootstrapNotComplete error on its response channel and
the driver state, in particular the consensus sync-request, is left
unchanged. -/
theorem bootstrap_not_complete_rejected (st : DriverState) (o : Oracle)
    (n : ConsensusNotification)
    (h1 : st.driverConfiguration.role = RoleType.validator)
    (h2 : st.bootstrapped = false) :
    (handle_consensus_notification st o n).1 = st ∧
    (handle_consensus_notification st o n).1.syncRequest = st.syncRequest ∧
    (handle_consensus_notification st o n).2 =
      (match n with
       | ConsensusNotification.notifyCommit _ =>
         [Effect.respondToCommit (Res.err (Error.bootstrapNotComplete
            (consensusNotificationDescription n))), Effect.logError]
       | ConsensusNotification.syncToTarget _ =>
         [Effect.respondToSync (Res.err (Error.bootstrapNotComplete
            (consensusNotificationDescription n))), Effect.logError]) := by
  unfold handle_consensus_notification
  have hr : (st.driverConfiguration.role == RoleType.fullNode) = false := by
    rw [h1]; rfl
  cases n <;> simp [hr, h2]

/-- Witness for the amended claim C3 at a concrete not-yet-bootstrapped
validator state and sync notification. -/
theorem bootstrap_not_complete_rejected_witness :
    (handle_consensus_notification exampleFreshValidatorState exampleOracle
      (ConsensusNotification.syncToTarget ⟨7⟩)).1 = exampleFreshValidatorState :=
  (bootstrap_not_complete_rejected exampleFreshValidatorState exampleOracle
    (ConsensusNotification.syncToTarget ⟨7⟩) rfl rfl).1

theorem check_sync_request_progress_effects (st : DriverState) (o : Oracle) :
    ∃ tail, (check_sync_request_progress st o).2.1 =
      Effect.checkSyncRequestProgressCall :: tail := by
  unfold check_sync_request_progress
  repeat' split
  all_goals exact ⟨_, rfl⟩

/-- Claim C4: for every consensus commit notification that passes
validation, the success path handles the batch via the shared
commit-notification routine, then acknowledges consensus, then checks
sync-request progress; and on every path, any sync-request progress
check in the trace occurs only after the commit acknowledgement has been
sent. -/
theorem commit_ack_precedes_progress_check (st : DriverState) (o : Oracle)
    (c : ConsensusCommitNotification) :
    ackBeforeCheck (handle_consensus_commit_notification st o c).2.1 = true ∧
    (o.fetchLatestSyncedVersion.isOk = true →
     o.fetchLatestSyncedLedgerInfo.isOk = true →
     o.handleTransactionNotificationResult = Res.ok () →
     o.respondToCommitResult = Res.ok () →
     (handle_consensus_commit_notification st o c).2.1 =
       [Effect.handleTransactionNotificationCall, Effect.respondToCommit (Res.ok ())] ++
         (check_sync_request_progress st o).2.1 ∧
     Effect.checkSyncRequestProgressCall ∈
       (handle_consensus_commit_notification st o c).2.1) := by
  constructor
  · unfold handle_consensus_commit_notification
    repeat' split
    all_goals simp [ackBeforeCheck]
  · intro h1 h2 h3 h4
    cases hv : o.fetchLatestSyncedVersion with
    | err e => rw [hv] at h1; simp [Res.isOk] at h1
    | ok v =>
      cases hl : o.fetchLatestSyncedLedgerInfo with
      | err e => rw [hl] at h2; simp [Res.isOk] at h2
      | ok l =>
        obtain ⟨tail, ht⟩ := check_sync_request_progress_effects st o
        rcases hcp : check_sync_request_progress st o with ⟨st2, effs, res⟩
        rw [hcp] at ht
        simp only at ht
        have hval : handle_consensus_commit_notification st o c =
            (st2, [Effect.handleTransactionNotificationCall,
                   Effect.respondToCommit (Res.ok ())] ++ effs, res) := by
          unfold handle_consensus_commit_notification
          simp only [hv, hl, h3, h4, hcp]
        simp only [hval, hcp]
        constructor
        · trivial
        · simp [ht]

/-- Witness for claim C4 at a concrete bootstrapped state and an
all-succeeding oracle. -/
theorem commit_ack_precedes_progress_check_witness :
    Effect.checkSyncRequestProgressCall ∈
      (handle_consensus_commit_notification exampleBootstrappedState exampleOracle
        ⟨[], []⟩).2.1 :=
  ((commit_ack_precedes_progress_check exampleBootstrappedState exampleOracle
    ⟨[], []⟩).2 rfl rfl rfl rfl).2

/-- Claim C5 fails as stated: with an active consensus sync request and
an oracle on which the shared transaction-notification routine returns
an internal error, handle_committed_transactions does not abort: it
still refreshes the last-commit timestamp of the sync request (the code
logs the routine error but does not return early). -/
theorem committed_transactions_abort_counterexample :
    exampleOracleTxnErr.handleTransactionNotificationResult.isOk = false ∧
    exampleSyncRequestState.syncRequest = some ⟨5, 10⟩ ∧
    (handle_committed_transactions exampleSyncRequestState exampleOracleTxnErr
        exampleCommittedTransactions).1.syncRequest = some ⟨5, 100⟩ ∧
    Effect.updateLastCommitTimestampCall ∈
      (handle_committed_transactions exampleSyncRequestState exampleOracleTxnErr
        exampleCommittedTransactions).2 :=
  ⟨rfl, rfl, rfl, by decide⟩

/-- Claim C5 (amended): for every committed-transactions notification, a
failed fetch of the latest synced version or ledger info is logged and
aborts handling with no further effects; an internal error of the shared
transaction-notification routine is logged but does not abort handling;
once the fetches succeed, if a consensus sync request is active its
last-commit timestamp is refreshed to the current time regardless of the
routine outcome, and it strictly increases whenever the current time
exceeds the stored timestamp. -/
theorem committed_transactions_handling (st : DriverState) (o : Oracle)
    (ct : CommittedTransactions) :
    (o.fetchLatestSyncedVersion.isOk = false →
      handle_committed_transactions st o ct = (st, [Effect.logError])) ∧
    (o.fetchLatestSyncedVersion.isOk = true →
     o.fetchLatestSyncedLedgerInfo.isOk = false →
      handle_committed_transactions st o ct = (st, [Effect.logError])) ∧
    (o.fetchLatestSyncedVersion.isOk = true →
     o.fetchLatestSyncedLedgerInfo.isOk = true →
      ((o.handleTransactionNotificationResult.isOk = false →
         Effect.logError ∈ (handle_committed_transactions st o ct).2) ∧
       (st.syncRequest = none → (handle_committed_transactions st o ct).1 = st) ∧
       (∀ req, st.syncRequest = some req →
         (handle_committed_transactions st o ct).1.syncRequest =
           some ⟨req.targetVersion, o.now⟩ ∧
         (req.lastCommitTimestamp < o.now →
           ∀ req2, (handle_committed_transactions st o ct).1.syncRequest = some req2 →
             req.lastCommitTimestamp < req2.lastCommitTimestamp)))) := by
  refine ⟨?_, ?_, ?_⟩
  · intro h1
    cases hv : o.fetchLatestSyncedVersion with
    | ok v => rw [hv] at h1; simp [Res.isOk] at h1
    | err e => unfold handle_committed_transactions; simp [hv]
  · intro h1 h2
    cases hv : o.fetchLatestSyncedVersion with
    | err e => rw [hv] at h1; simp [Res.isOk] at h1
    | ok v =>
      cases hl : o.fetchLatestSyncedLedgerInfo with
      | ok l => rw [hl] at h2; simp [Res.isOk] at h2
      | err e => unfold handle_committed_transactions; simp [hv, hl]
  · intro h1 h2
    cases hv : o.fetchLatestSyncedVersion with
    | err e => rw [hv] at h1; simp [Res.isOk] at h1
    | ok v =>
      cases hl : o.fetchLatestSyncedLedgerInfo with
      | err e => rw [hl] at h2; simp [Res.isOk] at h2
      | ok l =>
        have h0 : ∀ req, st.syncRequest = some req →
            (handle_committed_transactions st o ct).1.syncRequest =
              some ⟨req.targetVersion, o.now⟩ := by
          intro req hs
          unfold handle_committed_transactions
          simp [hv, hl, hs]
        refine ⟨?_, ?_, ?_⟩
        · intro h3
          cases htx : o.handleTransactionNotificationResult with
          | ok u => rw [htx] at h3; simp [Res.isOk] at h3
          | err e =>
            unfold handle_committed_transactions
            cases hs : st.syncRequest <;> simp [hv, hl, htx, hs]
        · intro hs
          unfold handle_committed_transactions
          simp [hv, hl, hs]
        · intro req hs
          refine ⟨h0 req hs, ?_⟩
          intro hlt req2 hreq2
          rw [h0 req hs] at hreq2
          injection hreq2 with h5
          rw [← h5]
          exact hlt

/-- Witness for the amended claim C5 at a concrete state with an active
sync request and an oracle whose transaction-notification routine
fails. -/
theorem committed_transactions_handling_witness :
    (handle_committed_transactions exampleSyncRequestState exampleOracleTxnErr
      exampleCommittedTransactions).1.syncRequest = some ⟨5, 100⟩ :=
  (((committed_transactions_handling exampleSyncRequestState exampleOracleTxnErr
      exampleCommittedTransactions).2.2 rfl rfl).2.2 ⟨5, 10⟩ rfl).1

/-- Claim C6: for every committed-accounts notification with
all_accounts_synced = true, a missing embedded transaction batch is an
invariant violation caught by the expect contract check (the process
aborts rather than silently ignoring it), and a present embedded final
batch is processed exactly via the committed-transactions path. -/
theorem committed_accounts_final_batch (st : DriverState) (o : Oracle)
    (ca : CommittedAccounts) (h : ca.allAccountsSynced = true) :
    (ca.committedTransaction = none →
      handle_committed_accounts st o ca =
        Outcome.aborted "Committed transaction should exist for last committed account chunk!") ∧
    (∀ ct, ca.committedTransaction = some ct →
      handle_committed_accounts st o ca =
        Outcome.normal ((handle_committed_transactions st o ct).1,
          bootstrapperForwardEffects o ++ (handle_committed_transactions st o ct).2)) := by
  constructor
  · intro hn
    unfold handle_committed_accounts
    simp [h, hn]
  · intro ct hs
    unfold handle_committed_accounts
    cases hc : handle_committed_transactions st o ct with
    | mk st2 effs => simp [h, hs, hc]

/-- Witness for claim C6 at a concrete payload with all accounts synced
and no embedded batch. -/
theorem committed_accounts_final_batch_witness :
    handle_committed_accounts exampleFreshValidatorState exampleOracle
        exampleAccountsNoBatch =
      Outcome.aborted "Committed transaction should exist for last committed account chunk!" :=
  (committed_accounts_final_batch exampleFreshValidatorState exampleOracle
    exampleAccountsNoBatch rfl).1 rfl

/-- Claim C7: on an error notification, a bootstrapped node terminates
the Continuous Syncer's active stream with the notification id and
feedback InvalidPayloadData, while a not-yet-bootstrapped node
terminates the Bootstrapper's with the same arguments; a failed
termination aborts the process and a successful one completes
normally. -/
theorem error_notification_terminates_stream (st : DriverState) (o : Oracle)
    (en : ErrorNotification) :
    (st.bootstrapped = true →
      (o.terminateContinuousSyncerResult = Res.ok () →
        handle_error_notification st o en =
          Outcome.normal [Effect.logError,
            Effect.continuousSyncerTerminateActiveStream en.notificationId
              NotificationFeedback.invalidPayloadData]) ∧
      (∀ e, o.terminateContinuousSyncerResult = Res.err e →
        handle_error_notification st o en =
          Outcome.aborted "Failed to terminate the active stream for the continuous syncer!")) ∧
    (st.bootstrapped = false →
      (o.terminateBootstrapperResult = Res.ok () →
        handle_error_notification st o en =
          Outcome.normal [Effect.logError,
            Effect.bootstrapperTerminateActiveStream en.notificationId
              NotificationFeedback.invalidPayloadData]) ∧
      (∀ e, o.terminateBootstrapperResult = Res.err e →
        handle_error_notification st o en =
          Outcome.aborted "Failed to terminate the active stream for the bootstrapper!")) := by
  constructor
  · intro hb
    constructor
    · intro hok
      unfold handle_error_notification
      simp [hb, hok]
    · intro e he
      unfold handle_error_notification
      simp [hb, he]
  · intro hb
    constructor
    · intro hok
      unfold handle_error_notification
      simp [hb, hok]
    · intro e he
      unfold handle_error_notification
      simp [hb, he]

/-- Witness for claim C7 at a concrete not-yet-bootstrapped state with a
succeeding Bootstrapper termination. -/
theorem error_notification_terminates_stream_witness :
    handle_error_notification exampleFreshValidatorState exampleOracle
        exampleErrorNotification =
      Outcome.normal [Effect.logError,
        Effect.bootstrapperTerminateActiveStream 42
          NotificationFeedback.invalidPayloadData] :=
  ((error_notification_terminates_stream exampleFreshValidatorState exampleOracle
    exampleErrorNotification).2 rfl).1 rfl

theorem check_auto_bootstrapping_no_progress_work (st : DriverState) (o : Oracle) :
    ((check_auto_bootstrapping st o).2.any Effect.isProgressWork) = false := by
  unfold check_auto_bootstrapping
  repeat' split
  all_goals simp [Effect.isProgressWork]

/-- Claim C8: on a progress tick whose global peer data-summary is
empty, the driver performs exactly the auto-bootstrap deadline check and
its trace contains no Bootstrapper or Continuous Syncer drive_progress
call and no sync-request progress check. -/
theorem empty_summary_skips_progress_work (st : DriverState) (o : Oracle)
    (h : o.globalDataSummary.isEmpty = true) :
    drive_progress st o = check_auto_bootstrapping st o ∧
    ((drive_progress st o).2.any Effect.isProgressWork) = false := by
  have h1 : drive_progress st o = check_auto_bootstrapping st o := by
    unfold drive_progress
    simp [h]
  exact ⟨h1, by rw [h1]; exact check_auto_bootstrapping_no_progress_work st o⟩

/-- Witness for claim C8 at a concrete bootstrapped state and an oracle
with an empty peer summary. -/
theorem empty_summary_skips_progress_work_witness :
    drive_progress exampleBootstrappedState exampleEmptySummaryOracle =
      check_auto_bootstrapping exampleBootstrappedState exampleEmptySummaryOracle :=
  (empty_summary_skips_progress_work exampleBootstrappedState
    exampleEmptySummaryOracle rfl).1

/-- Claim C9: auto-bootstrapping forces bootstrapping_complete on the
Bootstrapper only when the node is a Validator, not yet bootstrapped,
with a version-0 trusted waypoint, a recorded start time, and a
non-overflowing deadline that the current time has reached; when the
deadline addition overflows, the tick only logs an error and changes
nothing (no crash). -/
theorem auto_bootstrapping_conditions (st : DriverState) (o : Oracle) :
    (Effect.bootstrappingCompleteCall ∈ (check_auto_bootstrapping st o).2 →
      st.bootstrapped = false ∧
      st.driverConfiguration.role = RoleType.validator ∧
      st.driverConfiguration.waypointVersion = 0 ∧
      ∃ t0 deadline, st.startTime = some t0 ∧
        durationCheckedAdd t0 st.driverConfiguration.config.maxConnectionDeadlineSecs =
          some deadline ∧
        deadline ≤ o.now) ∧
    (∀ t0, st.startTime = some t0 →
      durationCheckedAdd t0 st.driverConfiguration.config.maxConnectionDeadlineSecs = none →
      st.bootstrapped = false →
      st.driverConfiguration.role = RoleType.validator →
      st.driverConfiguration.waypointVersion = 0 →
      check_auto_bootstrapping st o = (st, [Effect.logError])) := by
  constructor
  · intro hm
    unfold check_auto_bootstrapping at hm
    split at hm
    · rename_i hguard
      simp [is_validator] at hguard
      obtain ⟨⟨hb, hrole⟩, hw⟩ := hguard
      split at hm
      · rename_i t0 hst
        split at hm
        · rename_i deadline hadd
          split at hm
          · rename_i hnow
            exact ⟨hb, hrole, hw, t0, deadline, hst, hadd, hnow⟩
          · simp at hm
        · simp at hm
      · simp at hm
    · simp at hm
  · intro t0 hst hadd hb hrole hw
    unfold check_auto_bootstrapping
    simp [is_validator, hst, hadd, hb, hrole, hw]

/-- Witness for claim C9 at a concrete fresh validator past its
connection deadline. -/
theorem auto_bootstrapping_conditions_witness :
    exampleFreshValidatorState.bootstrapped = false ∧
    exampleFreshValidatorState.driverConfiguration.role = RoleType.validator ∧
    exampleFreshValidatorState.driverConfiguration.waypointVersion = 0 ∧
    ∃ t0 deadline, exampleFreshValidatorState.startTime = some t0 ∧
      durationCheckedAdd t0
        exampleFreshValidatorState.driverConfiguration.config.maxConnectionDeadlineSecs =
        some deadline ∧
      deadline ≤ exampleOracle.now :=
  (auto_bootstrapping_conditions exampleFreshValidatorState exampleOracle).1 (by decide)

/-- Claim C10: a Bootstrapper error on handle_committed_accounts is
logged and does not abort the handling of the notification: with
all_accounts_synced = true and an embedded batch present, the batch is
still processed via the committed-transactions path even though the
Bootstrapper call failed; with all_accounts_synced = false, handling
completes normally with the forwarding call and the error log. -/
theorem bootstrapper_error_does_not_abort_accounts (st : DriverState)
    (o : Oracle) (ca : CommittedAccounts)
    (h1 : o.bootstrapperHandleCommittedAccountsResult.isOk = false) :
    (∀ ct, ca.allAccountsSynced = true → ca.committedTransaction = some ct →
      handle_committed_accounts st o ca =
        Outcome.normal ((handle_committed_transactions st o ct).1,
          [Effect.bootstrapperHandleCommittedAccountsCall, Effect.logError] ++
            (handle_committed_transactions st o ct).2)) ∧
    (ca.allAccountsSynced = false →
      handle_committed_accounts st o ca =
        Outcome.normal (st,
          [Effect.bootstrapperHandleCommittedAccountsCall, Effect.logError])) := by
  have hb : bootstrapperForwardEffects o =
      [Effect.bootstrapperHandleCommittedAccountsCall, Effect.logError] := by
    unfold bootstrapperForwardEffects
    cases hx : o.bootstrapperHandleCommittedAccountsResult with
    | ok u => rw [hx] at h1; simp [Res.isOk] at h1
    | err e => simp
  constructor
  · intro ct h2 h3
    unfold handle_committed_accounts
    cases hc : handle_committed_transactions st o ct with
    | mk st2 effs => simp [h2, h3, hc, hb]
  · intro h2
    unfold handle_committed_accounts
    simp [h2, hb]

/-- Witness for claim C10 at a concrete payload with an embedded batch
and a rejecting Bootstrapper. -/
theorem bootstrapper_error_does_not_abort_accounts_witness :
    handle_committed_accounts exampleFreshValidatorState exampleOracleAccountsErr
        exampleAccountsWithBatch =
      Outcome.normal ((handle_committed_transactions exampleFreshValidatorState
          exampleOracleAccountsErr exampleCommittedTransactions).1,
        [Effect.bootstrapperHandleCommittedAccountsCall, Effect.logError] ++
          (handle_committed_transactions exampleFreshValidatorState
            exampleOracleAccountsErr exampleCommittedTransactions).2) :=
  (bootstrapper_error_does_not_abort_accounts exampleFreshValidatorState
    exampleOracleAccountsErr exampleAccountsWithBatch rfl).1
    exampleCommittedTransactions rfl rfl

end StateSyncDriver
